import Mathlib

/-!
A verification development for the smok-client repository.

The definitions below are a shallow embedding of the Python source:

* `src/ngtt/protocol.py`          — NGTT frame codec
* `src/ngtt/uplink/connection.py` — NGTT socket (receive buffer, id allocator, ping)
* `src/ngtt/uplink/thread.py`     — NGTT connection thread (settlement futures)
* `src/smok/pathpoint/orders.py`  — orders and sections
* `src/smok/threads/executor.py`  — order executor loop (coalescing)
* `src/smok/extras/pp_database/in_memory.py` — in-memory pathpoint database
* `src/smok/predicate/base.py`    — predicates and silencing windows

Byte strings are modelled as `List Nat` (each entry a byte value), Python
dicts as insertion-ordered association lists, and Python numbers as `Nat`
or `Int`.  Fallible code returns `Option`/`Except`, with ambient
nondeterminism (wall clock, fresh uuids) passed in as explicit arguments.
-/

namespace SmokClient

namespace Ngtt

/-- `NGTTHeaderType` (src/ngtt/protocol.py lines 11-20): the defined frame
types of the NGTT protocol. -/
inductive NGTTHeaderType where
  | PING
  | ORDER
  | ORDER_CONFIRM
  | LOGS
  | DATA_STREAM
  | DATA_STREAM_CONFIRM
  | DATA_STREAM_REJECT
  | ORDER_REJECT
  | FETCH_ORDERS
  deriving DecidableEq, Repr

/-- The integer value of each `NGTTHeaderType` member (the `IntEnum`
values assigned in src/ngtt/protocol.py lines 12-20; note the gap at 7-8). -/
def NGTTHeaderType.value : NGTTHeaderType → Nat
  | .PING => 0
  | .ORDER => 1
  | .ORDER_CONFIRM => 2
  | .LOGS => 3
  | .DATA_STREAM => 4
  | .DATA_STREAM_CONFIRM => 5
  | .DATA_STREAM_REJECT => 6
  | .ORDER_REJECT => 9
  | .FETCH_ORDERS => 10

/-- Python `NGTTHeaderType(n)`: look an enum member up by value; `none`
models the `ValueError` raised for a value that is not a member. -/
def NGTTHeaderType.ofValue : Nat → Option NGTTHeaderType
  | 0 => some .PING
  | 1 => some .ORDER
  | 2 => some .ORDER_CONFIRM
  | 3 => some .LOGS
  | 4 => some .DATA_STREAM
  | 5 => some .DATA_STREAM_CONFIRM
  | 6 => some .DATA_STREAM_REJECT
  | 9 => some .ORDER_REJECT
  | 10 => some .FETCH_ORDERS
  | _ => none

/-- Big-endian 2-byte encoding, as produced by `struct.pack` format `H`.
(`struct.pack` raises for values outside `[0, 2^16)`; theorems about it
carry that bound as a hypothesis.) -/
def pack16 (n : Nat) : List Nat := [n / 256 % 256, n % 256]

/-- Big-endian 4-byte encoding, as produced by `struct.pack` format `L`
(values outside `[0, 2^32)` raise in Python; theorems carry the bound). -/
def pack32 (n : Nat) : List Nat :=
  [n / 16777216 % 256, n / 65536 % 256, n / 256 % 256, n % 256]

/-- Big-endian 2-byte decoding (`struct.unpack` format `H`). -/
def unpack16 : List Nat → Nat
  | [a, b] => a * 256 + b
  | _ => 0

/-- Big-endian 4-byte decoding (`struct.unpack` format `L`). -/
def unpack32 : List Nat → Nat
  | [a, b, c, d] => ((a * 256 + b) * 256 + c) * 256 + d
  | _ => 0

/-- `STRUCT_LHH.pack(length, tid, h_type)` (src/ngtt/protocol.py line 23):
the 8-byte big-endian frame header `u32 length, u16 tid, u16 type`. -/
def struct_lhh_pack (length tid h_type : Nat) : List Nat :=
  pack32 length ++ pack16 tid ++ pack16 h_type

/-- `NGTTFrame` (src/ngtt/protocol.py lines 26-46): transaction id,
packet type and payload. -/
structure NGTTFrame where
  tid : Nat
  packet_type : NGTTHeaderType
  data : List Nat
  deriving DecidableEq, Repr

/-- `NGTTFrame.__bytes__` (src/ngtt/protocol.py lines 64-65):
`STRUCT_LHH.pack(len(self.data), self.tid, self.packet_type.value) + self.data`. -/
def NGTTFrame.toBytes (f : NGTTFrame) : List Nat :=
  struct_lhh_pack f.data.length f.tid f.packet_type.value ++ f.data

/-- Result of `NGTTFrame.from_buffer`: `needMore` models the `None`
return, `invalidType` the `ValueError` escaping from `NGTTHeaderType(h_type)`,
and `ok consumed frame` the returned pair. -/
inductive FromBufferResult where
  | needMore
  | invalidType (h_type : Nat)
  | ok (consumed : Nat) (f : NGTTFrame)
  deriving DecidableEq, Repr

/-- `NGTTFrame.from_buffer` (src/ngtt/protocol.py lines 74-91). -/
def NGTTFrame.from_buffer (buffer : List Nat) : FromBufferResult :=
  if buffer.length < 8 then .needMore
  else
    let length := unpack32 (buffer.take 4)
    let tid := unpack16 ((buffer.drop 4).take 2)
    let h_type := unpack16 ((buffer.drop 6).take 2)
    if length = 0 then
      match NGTTHeaderType.ofValue h_type with
      | none => .invalidType h_type
      | some t => .ok 8 ⟨tid, t, []⟩
    else if buffer.length < length + 8 then .needMore
    else
      match NGTTHeaderType.ofValue h_type with
      | none => .invalidType h_type
      | some t => .ok (length + 8) ⟨tid, t, (buffer.drop 8).take length⟩

/-- Errors of `NGTTFrame.from_bytes`: `structError` models the
`struct.error` raised by unpacking fewer than 8 bytes, `invalidFrame` the
explicitly raised `InvalidFrame`, `valueError` the `ValueError` that
`NGTTHeaderType(h_type)` would raise for a non-member value. -/
inductive FromBytesError where
  | structError
  | invalidFrame (h_type : Nat)
  | valueError (h_type : Nat)
  deriving DecidableEq, Repr

/-- `NGTTFrame.from_bytes` (src/ngtt/protocol.py lines 67-72): rejects any
header whose type field exceeds `DATA_STREAM_REJECT.value = 6` with
`InvalidFrame`, otherwise builds the frame from `b[8 : 8 + length]`. -/
def NGTTFrame.from_bytes (b : List Nat) : Except FromBytesError NGTTFrame :=
  if b.length < 8 then .error .structError
  else
    let length := unpack32 (b.take 4)
    let tid := unpack16 ((b.drop 4).take 2)
    let h_type := unpack16 ((b.drop 6).take 2)
    if 6 < h_type then .error (.invalidFrame h_type)
    else
      match NGTTHeaderType.ofValue h_type with
      | none => .error (.valueError h_type)
      | some t => .ok ⟨tid, t, (b.drop 8).take length⟩

/-- Result of one `NGTTSocket.recv_frame` call: `connFailed` models the
`ConnectionFailed` raised on an empty read, `indexError` the `IndexError`
raised by `del self.buffer[length]` when `length` is not a valid index,
`invalidType` a `ValueError` escaping from frame parsing, `noFrame` the
`None` return, `frame f` a delivered frame. -/
inductive RecvResult where
  | connFailed
  | indexError
  | invalidType (h_type : Nat)
  | noFrame
  | frame (f : NGTTFrame)
  deriving DecidableEq, Repr

/-- `NGTTSocket.recv_frame` (src/ngtt/uplink/connection.py lines 142-165),
as a function of the current receive buffer and the bytes returned by
`self.socket.recv(512)`.  Faithfully, after a frame is parsed the code runs
`del self.buffer[length]`, which deletes the single byte at index `length`
(raising `IndexError` when `length == len(buffer)`), not the first
`length` bytes. -/
def NGTTSocket.recv_frame (buffer data : List Nat) :
    RecvResult × List Nat :=
  if data = [] then (.connFailed, buffer)
  else
    let buffer := buffer ++ data
    match NGTTFrame.from_buffer buffer with
    | .needMore => (.noFrame, buffer)
    | .invalidType h => (.invalidType h, buffer)
    | .ok length f =>
        if length < buffer.length then (.frame f, buffer.eraseIdx length)
        else (.indexError, buffer)

/-- Model of `satella.coding.concurrent.IDAllocator` (an external library
used at src/ngtt/uplink/connection.py line 76), from its documented
contract: it hands out pairwise-distinct integer ids from
`[start_at, top_limit)`, preferring previously freed ids, and raises
`Empty` when the pool is exhausted.  `bound` is the smallest id never yet
handed out, `free_ids` the freed ids available for reuse, `allocated` the
ids currently outstanding. -/
structure IDAllocator where
  start_at : Nat
  top_limit : Nat
  bound : Nat
  free_ids : List Nat
  allocated : List Nat
  deriving DecidableEq, Repr

/-- `IDAllocator.allocate_int`: reuse a freed id if one exists, else hand
out `bound` when it is below `top_limit`; `none` models the `Empty`
exception on exhaustion. -/
def IDAllocator.allocate_int (a : IDAllocator) : Option (Nat × IDAllocator) :=
  match a.free_ids with
  | x :: rest => some (x, { a with free_ids := rest, allocated := x :: a.allocated })
  | [] =>
      if a.bound < a.top_limit then
        some (a.bound, { a with bound := a.bound + 1, allocated := a.bound :: a.allocated })
      else none

/-- `IDAllocator.mark_as_free(id)`: return an outstanding id to the pool. -/
def IDAllocator.mark_as_free (a : IDAllocator) (id : Nat) : IDAllocator :=
  { a with allocated := a.allocated.erase id, free_ids := id :: a.free_ids }

/-- The id allocator a fresh `NGTTSocket` builds
(src/ngtt/uplink/connection.py line 76):
`IDAllocator(start_at=1, top_limit=0x10000)`. -/
def NGTTSocket.id_assigner_init : IDAllocator :=
  { start_at := 1, top_limit := 0x10000, bound := 1, free_ids := [], allocated := [] }

/-- Run `allocate_int` `n` times, keeping only the final allocator state
(allocation stops early if the pool is exhausted). -/
def IDAllocator.allocRun : Nat → IDAllocator → IDAllocator
  | 0, a => a
  | n + 1, a =>
      match a.allocate_int with
      | some (_, a2) => IDAllocator.allocRun n a2
      | none => a

/-- Health invariant of an `IDAllocator` state: the bound stays inside
`[start_at, top_limit]`, outstanding ids are pairwise distinct, and both
outstanding and freed ids lie in `[start_at, bound)` and do not overlap. -/
def IDAllocator.Inv (a : IDAllocator) : Prop :=
  a.start_at ≤ a.bound ∧ a.bound ≤ a.top_limit ∧
  a.allocated.Nodup ∧ a.free_ids.Nodup ∧
  (∀ x ∈ a.allocated, a.start_at ≤ x ∧ x < a.bound) ∧
  (∀ x ∈ a.free_ids, a.start_at ≤ x ∧ x < a.bound) ∧
  (∀ x ∈ a.free_ids, x ∉ a.allocated)

/-- The ping branch of `NGTTSocket.try_ping`
(src/ngtt/uplink/connection.py lines 119-126): allocate a ping id,
turning the allocator's `Empty` into `ConnectionFailed`.  `.error` carries
the `ConnectionFailed` message. -/
def NGTTSocket.try_ping_allocate (a : IDAllocator) :
    Except String (Nat × IDAllocator) :=
  match a.allocate_int with
  | some r => .ok r
  | none => .error "ConnectionFailed: ran out of IDs on ping"

/-- State of a settlement future, as used by `NGTTConnection`
(src/ngtt/uplink/thread.py): a `concurrent.futures.Future` is `pending`
until someone calls `set_result` / `set_exception` on it. -/
inductive FutStatus where
  | pending
  | done
  | failedSync
  deriving DecidableEq, Repr

/-- The parts of `NGTTConnection` (src/ngtt/uplink/thread.py lines 55-66)
that settlement futures flow through: whether a connection object is
attached, the tid-to-future map `op_id_to_op`, the list
`currently_running_ops` of `(header type value, payload, future id)`, and
a registry giving each future's settlement status. -/
structure NGTTConnectionState where
  current_connection : Bool
  op_id_to_op : List (Nat × Nat)
  currently_running_ops : List (Nat × List Nat × Nat)
  futures : List (Nat × FutStatus)
  deriving DecidableEq, Repr

/-- The future bookkeeping of `NGTTConnection.sync_pathpoints`
(src/ngtt/uplink/thread.py lines 140-157): create a pending future
`fut_id`, append `(DATA_STREAM, data, fut)` to `currently_running_ops`
and register the future under the allocated `tid` in `op_id_to_op`. -/
def NGTTConnectionState.sync_pathpoints_register (s : NGTTConnectionState)
    (tid fut_id : Nat) (data : List Nat) : NGTTConnectionState :=
  { s with
    futures := s.futures ++ [(fut_id, .pending)]
    currently_running_ops :=
      s.currently_running_ops ++ [(NGTTHeaderType.DATA_STREAM.value, data, fut_id)]
    op_id_to_op := s.op_id_to_op ++ [(tid, fut_id)] }

/-- `NGTTConnection.close` (src/ngtt/uplink/thread.py lines 81-89): stop
the thread, and if a connection object is attached, close it, drop it and
replace `op_id_to_op` with an empty dict.  `NGTTSocket.close`
(src/ngtt/uplink/connection.py lines 167-175) only disconnects the socket
and removes the temporary certificate-chain file; neither method touches
any future, so the `futures` registry is carried over unchanged. -/
def NGTTConnectionState.close (s : NGTTConnectionState) : NGTTConnectionState :=
  if s.current_connection then
    { s with current_connection := false, op_id_to_op := [] }
  else s

end Ngtt

namespace Smok

/-- `AdviseLevel` (src/smok/pathpoint/orders.py lines 19-24). -/
inductive AdviseLevel where
  | ADVISE
  | FORCE
  deriving DecidableEq, Repr

/-- The `IntEnum` value of each `AdviseLevel` member. -/
def AdviseLevel.value : AdviseLevel → Nat
  | .ADVISE => 0
  | .FORCE => 1

/-- Python truthiness of an `IntEnum` member: truthy iff its integer
value is nonzero. -/
def truthy (n : Nat) : Bool := n ≠ 0

/-- Pathpoint values: an `int`, `float`, `str` or `bool`; the exact
variant is irrelevant to the claims, so values are collapsed to `Int`. -/
abbrev PathpointValue := Int

/-- `WriteOrder` (src/smok/pathpoint/orders.py lines 95-114). -/
structure WriteOrder where
  pathpoint : String
  value : PathpointValue
  advise : AdviseLevel
  stale_after : Option Int
  repeat_count : Nat
  deriving DecidableEq, Repr

/-- `WriteOrder.__init__` (src/smok/pathpoint/orders.py lines 108-114):
`self.repeat_count = 10 if advise == AdviseLevel.FORCE else 1`. -/
def WriteOrder.init (pathpoint : String) (value : PathpointValue)
    (advise : AdviseLevel) (stale_after : Option Int) : WriteOrder :=
  { pathpoint := pathpoint
    value := value
    advise := advise
    repeat_count := if advise = AdviseLevel.FORCE then 10 else 1
    stale_after := stale_after }

/-- `ReadOrder` (src/smok/pathpoint/orders.py lines 139-151). -/
structure ReadOrder where
  pathpoint : String
  advise : AdviseLevel
  repeat_count : Nat
  deriving DecidableEq, Repr

/-- `ReadOrder.__init__` (src/smok/pathpoint/orders.py lines 148-151):
`self.repeat_count = 3 if AdviseLevel.ADVISE else 20`.  The Python
condition is the constant enum member `AdviseLevel.ADVISE` itself (value
0, hence falsy), not a comparison against `advise`; the embedding keeps
that conditional verbatim via `truthy`. -/
def ReadOrder.init (pathpoint : String) (advise : AdviseLevel) : ReadOrder :=
  { pathpoint := pathpoint
    advise := advise
    repeat_count := if truthy AdviseLevel.ADVISE.value then 3 else 20 }

/-- `Order` (src/smok/pathpoint/orders.py): one of the five order kinds. -/
inductive Order where
  | write (w : WriteOrder)
  | read (r : ReadOrder)
  | wait (period : Int)
  | message (uuid : String)
  | sysctl (op_type op_args : String)
  deriving DecidableEq, Repr

/-- `Disposition` (src/smok/pathpoint/orders.py lines 197-202). -/
inductive Disposition where
  | JOINABLE
  | CANNOT_JOIN
  deriving DecidableEq, Repr

/-- `Section` (src/smok/pathpoint/orders.py lines 205-226).  Its `future`
attribute is a `FutureCollection([Future()])`; the collection is modelled
as the list of ids of the futures it holds. -/
structure Section where
  orders : List Order
  disposition : Disposition
  future : List Nat
  cancelled : Bool
  deriving DecidableEq, Repr

/-- `Section.is_joinable` (src/smok/pathpoint/orders.py lines 265-266). -/
def Section.is_joinable (s : Section) : Bool :=
  s.disposition = Disposition.JOINABLE

/-- `Section.__iadd__` applied to another `Section`
(src/smok/pathpoint/orders.py lines 255-263, final branch): extend
`self.orders` with the other section's orders and merge the two future
collections (`self.future += other.future`). -/
def Section.iadd_section (s other : Section) : Section :=
  { s with orders := s.orders ++ other.orders, future := s.future ++ other.future }

/-- `Section.mark_as_done` (src/smok/pathpoint/orders.py lines 231-235)
calls `set_result` on the section's `FutureCollection`, settling every
future in it; this returns the ids of the futures that resolve. -/
def Section.mark_as_done_resolves (s : Section) : List Nat := s.future

/-- `OrderExecutorThread.loop` (src/smok/threads/executor.py lines
166-173), up to the `execute_a_section` call: dequeue `section`; if the
queue is non-empty, peek the next section, and when both the head and the
next section are joinable, pop the next section and merge it into the
head with `section += self.queue.get()`.  Returns the section that will
be executed together with the remaining queue. -/
def OrderExecutorThread.loop (sect : Section) (queue : List Section) :
    Section × List Section :=
  match queue with
  | [] => (sect, [])
  | next_section :: rest =>
      if sect.is_joinable && next_section.is_joinable then
        (sect.iadd_section next_section, rest)
      else (sect, next_section :: rest)

/-- Look a key up in an insertion-ordered association list (Python dict
read / `in` test). -/
def dictGet? {α : Type} : List (String × α) → String → Option α
  | [], _ => none
  | (k, v) :: rest, key => if k = key then some v else dictGet? rest key

/-- Write a key in an insertion-ordered association list (Python dict
write: update in place when present, append when absent). -/
def dictSet {α : Type} : List (String × α) → String → α → List (String × α)
  | [], key, v => [(key, v)]
  | (k, w) :: rest, key, v =>
      if k = key then (k, v) :: rest else (k, w) :: dictSet rest key v

/-- Delete a key from an insertion-ordered association list (Python
`del dict[key]`). -/
def dictDel {α : Type} : List (String × α) → String → List (String × α)
  | [], _ => []
  | (k, w) :: rest, key => if k = key then rest else (k, w) :: dictDel rest key

/-- The payload of one stored datapoint dict in
`InMemoryPathpointDatabase.on_new_data`
(src/smok/extras/pp_database/in_memory.py lines 69-72): either a value or
an `error_code` taken from an `OperationFailedError`. -/
inductive PPData where
  | value (v : PathpointValue)
  | error_code (reason : Int)
  deriving DecidableEq, Repr

/-- One stored sample dict `{timestamp: ..., value|error_code: ...}`.
Timestamps (`satella` `Number`) are modelled as integers, so the `int()`
coercion in `on_new_data` line 77 is the identity. -/
structure Datapoint where
  timestamp : Int
  data : PPData
  deriving DecidableEq, Repr

/-- The `pathpoints` dict of `InMemoryPathpointDatabase`
(src/smok/extras/pp_database/in_memory.py line 96): pathpoint name to
list of stored samples, in insertion order. -/
abbrev PPDatabase := List (String × List Datapoint)

/-- `InMemoryPathpointDatabase.on_new_data`
(src/smok/extras/pp_database/in_memory.py lines 67-78): build the
datapoint; if the pathpoint is absent, store `[datapoint]`; otherwise
append it iff `int(self.pathpoints[pathpoint][0]['timestamp']) <
int(timestamp)` — the comparison is against the FIRST stored sample.
(The `[]` inner case is unreachable, since no operation leaves an empty
list behind; Python would raise `IndexError` there.) -/
def on_new_data (db : PPDatabase) (pathpoint : String) (timestamp : Int)
    (value_or_exception : PPData) : PPDatabase :=
  let datapoint : Datapoint := ⟨timestamp, value_or_exception⟩
  match dictGet? db pathpoint with
  | none => dictSet db pathpoint [datapoint]
  | some lst =>
      match lst with
      | [] => db
      | first :: _ =>
          if first.timestamp < timestamp then
            dictSet db pathpoint (lst ++ [datapoint])
          else db

/-- `InMemoryPathpointDatabase.confirm_synced_up_to`
(src/smok/extras/pp_database/in_memory.py lines 80-93): find the first
index whose sample has `timestamp > timestamp` argument via a
`for ... break / else` loop; keep the list from that index on, or delete
the pathpoint when every sample's timestamp is `≤ timestamp`. -/
def confirm_synced_up_to (db : PPDatabase) (pathpoint : String)
    (timestamp : Int) : PPDatabase :=
  match dictGet? db pathpoint with
  | none => db
  | some lst =>
      match lst.findIdx? (fun d => timestamp < d.timestamp) with
      | some i => dictSet db pathpoint (lst.drop i)
      | none => dictDel db pathpoint

/-- `InMemoryPathpointDatabase.get_data_to_sync`
(src/smok/extras/pp_database/in_memory.py lines 58-65): `None` when the
dict is empty, else a snapshot copying each pathpoint's current value
list (the `data` attribute of `InMemoryDataToSynchronize`). -/
def get_data_to_sync (db : PPDatabase) : Option PPDatabase :=
  if db = [] then none else some db

/-- Python `max(v['timestamp'] for v in pp['values'])` over a non-empty
list (the empty case would raise `ValueError` in Python; snapshots never
contain an empty value list). -/
def maxTimestamp : List Datapoint → Int
  | [] => 0
  | d :: ds => ds.foldl (fun m x => max m x.timestamp) d.timestamp

/-- `InMemoryDataToSynchronize.acknowledge`
(src/smok/extras/pp_database/in_memory.py lines 25-32): compute each
snapshotted pathpoint's maximum timestamp, then
`confirm_synced_up_to(pathpoint, max_ts)` for each.  (The intermediate
`timestamps_for_pathpoints` dict is keyed by path; snapshot paths are
unique, so the dict enumerates exactly the snapshot entries in order.) -/
def acknowledge (db : PPDatabase) (snapshot_data : PPDatabase) : PPDatabase :=
  snapshot_data.foldl
    (fun db2 pp => confirm_synced_up_to db2 pp.1 (maxTimestamp pp.2)) db

/-- `Time` (src/smok/predicate/base.py lines 14-35): a time during a
week. -/
structure Time where
  day_of_week : Nat
  hour : Nat
  minute : Nat
  deriving DecidableEq, Repr

/-- `Time.to_tuple` (src/smok/predicate/base.py lines 34-35). -/
def Time.to_tuple (t : Time) : Nat × Nat × Nat := (t.day_of_week, t.hour, t.minute)

/-- Python `<=` on 3-tuples of integers: lexicographic comparison. -/
def tupleLe : Nat × Nat × Nat → Nat × Nat × Nat → Bool
  | (a1, a2, a3), (b1, b2, b3) =>
      a1 < b1 || (a1 = b1 && (a2 < b2 || (a2 = b2 && a3 ≤ b3)))

/-- `DisabledTime` (src/smok/predicate/base.py lines 38-54): one
silencing window. -/
structure DisabledTime where
  start : Time
  stop : Time
  deriving DecidableEq, Repr

/-- `DisabledTime.is_in_time` (src/smok/predicate/base.py lines 56-63):
`self.start.to_tuple() <= (t.isoweekday(), t.hour, t.minute) <=
self.stop.to_tuple()`.  The local time is modelled by the same
`(day_of_week, hour, minute)` triple a `datetime` provides. -/
def DisabledTime.is_in_time (d : DisabledTime) (t : Time) : Bool :=
  tupleLe d.start.to_tuple t.to_tuple && tupleLe t.to_tuple d.stop.to_tuple

/-- `Color` (src/smok/predicate/event.py lines 11-17). -/
inductive Color where
  | WHITE
  | YELLOW
  | RED
  deriving DecidableEq, Repr

/-- `Event` (src/smok/predicate/event.py lines 20-89), with the fields
`open_event` populates.  `metadata` is the `{'predicate_id': ...}` dict,
modelled by the predicate id it holds. -/
structure Event where
  uuid : Option String
  provisional_uuid : Option String
  started_on : Int
  ended_on : Option Int
  color : Color
  is_point : Bool
  token : Option String
  group : String
  message : String
  handled_by : Option String
  metadata_predicate_id : String
  deriving DecidableEq, Repr

/-- `Event.__init__` (src/smok/predicate/event.py lines 73-89) for the
call made by `open_event`: `uuid_` is `None`, so a fresh
`provisional_uuid` is drawn (passed in here as `fresh_uuid`), and
`started_on or time_as_int()` replaces a `None` (or zero, by Python
truthiness) start time with the current time `now`. -/
def Event.init (uuid_ : Option String) (started_on : Option Int)
    (ended_on : Option Int) (color : Color) (is_point : Bool)
    (token : Option String) (group : String) (message : String)
    (handled_by : Option String) (metadata_predicate_id : String)
    (now : Int) (fresh_uuid : String) : Event :=
  { uuid := uuid_
    provisional_uuid := if uuid_ = none then some fresh_uuid else none
    started_on :=
      match started_on with
      | some s => if s = 0 then now else s
      | none => now
    ended_on := ended_on
    color := color
    is_point := is_point
    token := token
    group := group
    message := message
    handled_by := handled_by
    metadata_predicate_id := metadata_predicate_id }

/-- The event store the predicate writes through
(`InMemoryEventDatabase`, src/smok/extras/event_database/in_memory.py):
`add_event` appends the event to both `events` and `events_to_sync`. -/
structure EventStore where
  events : List Event
  events_to_sync : List Event
  deriving DecidableEq, Repr

/-- `InMemoryEventDatabase.add_event`
(src/smok/extras/event_database/in_memory.py lines 64-67). -/
def EventStore.add_event (st : EventStore) (e : Event) : EventStore :=
  { st with events := st.events ++ [e], events_to_sync := st.events_to_sync ++ [e] }

/-- The event `BaseStatistic.open_event` constructs
(src/smok/predicate/base.py lines 152-157): message is
`verbose_name`, extended to `verbose_name + ": " + msg` when `msg` is a
non-empty (truthy) string; the event is
`Event(None, None, None, color, False, statistic, group, message, None,
metadata)`. -/
def BaseStatistic.constructed_event (verbose_name : String)
    (statistic : Option String) (group : String) (predicate_id : String)
    (msg : String) (color : Color) (now : Int) (fresh_uuid : String) : Event :=
  let message := if msg ≠ "" then verbose_name ++ ": " ++ msg else verbose_name
  Event.init none none none color false statistic group message none
    predicate_id now fresh_uuid

/-- `BaseStatistic.open_event` (src/smok/predicate/base.py lines
135-159): if the local time lies inside any silencing window, return
`None` and leave the event store untouched; else construct the event,
`add_event` it and return it.  The wall clock (`now`, used for
`started_on`) and the fresh uuid are explicit inputs. -/
def BaseStatistic.open_event (silencing : List DisabledTime)
    (verbose_name : String) (statistic : Option String) (group : String)
    (predicate_id : String) (localtime : Time) (msg : String) (color : Color)
    (now : Int) (fresh_uuid : String) (store : EventStore) :
    Option Event × EventStore :=
  if silencing.any (fun w => w.is_in_time localtime) then (none, store)
  else
    let evt := BaseStatistic.constructed_event verbose_name statistic group
      predicate_id msg color now fresh_uuid
    (some evt, store.add_event evt)

end Smok

/-! ## Theorems -/

namespace Ngtt

theorem unpack16_pack16 (n : Nat) (h : n < 65536) :
    unpack16 [n / 256 % 256, n % 256] = n := by
  simp only [unpack16]
  omega

theorem unpack32_pack32 (n : Nat) (h : n < 4294967296) :
    unpack32 [n / 16777216 % 256, n / 65536 % 256, n / 256 % 256, n % 256] = n := by
  simp only [unpack32]
  omega

theorem ofValue_value (t : NGTTHeaderType) :
    NGTTHeaderType.ofValue t.value = some t := by
  cases t <;> rfl

theorem value_lt (t : NGTTHeaderType) : t.value < 65536 := by
  cases t <;> decide

theorem toBytes_eq (tid : Nat) (t : NGTTHeaderType) (data : List Nat) :
    NGTTFrame.toBytes ⟨tid, t, data⟩ =
      (data.length / 16777216 % 256) :: (data.length / 65536 % 256) ::
      (data.length / 256 % 256) :: (data.length % 256) ::
      (tid / 256 % 256) :: (tid % 256) ::
      (t.value / 256 % 256) :: (t.value % 256) :: data := by
  simp [NGTTFrame.toBytes, struct_lhh_pack, pack32, pack16]

theorem take_cons8_add (m b0 b1 b2 b3 b4 b5 b6 b7 : Nat) (rest : List Nat) :
    (b0 :: b1 :: b2 :: b3 :: b4 :: b5 :: b6 :: b7 :: rest).take (m + 8) =
      b0 :: b1 :: b2 :: b3 :: b4 :: b5 :: b6 :: b7 :: rest.take m := rfl

theorem from_buffer_cons8 (l0 l1 l2 l3 t0 t1 h0 h1 : Nat) (rest : List Nat) :
    NGTTFrame.from_buffer (l0 :: l1 :: l2 :: l3 :: t0 :: t1 :: h0 :: h1 :: rest) =
      (if unpack32 [l0, l1, l2, l3] = 0 then
         match NGTTHeaderType.ofValue (unpack16 [h0, h1]) with
         | none => .invalidType (unpack16 [h0, h1])
         | some t => .ok 8 ⟨unpack16 [t0, t1], t, []⟩
       else if rest.length + 8 < unpack32 [l0, l1, l2, l3] + 8 then .needMore
       else
         match NGTTHeaderType.ofValue (unpack16 [h0, h1]) with
         | none => .invalidType (unpack16 [h0, h1])
         | some t => .ok (unpack32 [l0, l1, l2, l3] + 8)
             ⟨unpack16 [t0, t1], t, rest.take (unpack32 [l0, l1, l2, l3])⟩) := by
  simp only [NGTTFrame.from_buffer]
  rw [if_neg (by simp)]
  rfl

theorem from_bytes_cons8 (l0 l1 l2 l3 t0 t1 h0 h1 : Nat) (rest : List Nat) :
    NGTTFrame.from_bytes (l0 :: l1 :: l2 :: l3 :: t0 :: t1 :: h0 :: h1 :: rest) =
      (if 6 < unpack16 [h0, h1] then
         .error (.invalidFrame (unpack16 [h0, h1]))
       else
         match NGTTHeaderType.ofValue (unpack16 [h0, h1]) with
         | none => .error (.valueError (unpack16 [h0, h1]))
         | some t =>
             .ok ⟨unpack16 [t0, t1], t, rest.take (unpack32 [l0, l1, l2, l3])⟩) := by
  simp only [NGTTFrame.from_bytes]
  rw [if_neg (by simp)]
  rfl

/-- Decoding the encoding of a frame succeeds and consumes the whole
encoding, while every strict prefix decodes to `None` (helper shared by
the C4 and C10 theorems). -/
theorem from_buffer_toBytes_spec (tid : Nat) (t : NGTTHeaderType)
    (data : List Nat) (htid : tid < 65536) (hlen : data.length < 4294967296) :
    NGTTFrame.from_buffer (NGTTFrame.toBytes ⟨tid, t, data⟩) =
      .ok (data.length + 8) ⟨tid, t, data⟩ ∧
    ∀ n, n < data.length + 8 →
      NGTTFrame.from_buffer ((NGTTFrame.toBytes ⟨tid, t, data⟩).take n) =
        .needMore := by
  have hval := value_lt t
  constructor
  · rw [toBytes_eq, from_buffer_cons8, unpack32_pack32 data.length hlen,
      unpack16_pack16 tid htid, unpack16_pack16 t.value hval, ofValue_value]
    by_cases h0 : data.length = 0
    · rw [if_pos h0]
      have hd : data = [] := List.eq_nil_of_length_eq_zero h0
      simp [hd, h0]
    · rw [if_neg h0, if_neg (by omega)]
      simp
  · intro n hn
    rcases Nat.lt_or_ge n 8 with h8 | h8
    · have hlen8 : ((NGTTFrame.toBytes ⟨tid, t, data⟩).take n).length < 8 := by
        rw [List.length_take]
        omega
      simp only [NGTTFrame.from_buffer]
      rw [if_pos hlen8]
    · obtain ⟨m, rfl⟩ : ∃ m, n = m + 8 := ⟨n - 8, by omega⟩
      have hm : m < data.length := by omega
      rw [toBytes_eq, take_cons8_add, from_buffer_cons8,
        unpack32_pack32 data.length hlen]
      rw [if_neg (by omega), if_pos (by rw [List.length_take]; omega)]

/-- C4: decoding the encoding of any NGTT frame (16-bit transaction id,
any defined frame type, payload shorter than `2^32` so that the header
packs) yields the frame back, consuming `payload_len + 8` bytes, and
decoding any strict prefix of the encoding reports that more bytes are
needed (`None`), never a partially decoded frame. -/
theorem C4_frame_decode_encode_roundtrip (tid : Nat) (t : NGTTHeaderType)
    (data : List Nat) (htid : tid < 65536) (hlen : data.length < 4294967296) :
    NGTTFrame.from_buffer (NGTTFrame.toBytes ⟨tid, t, data⟩) =
      .ok (data.length + 8) ⟨tid, t, data⟩ ∧
    ∀ n, n < data.length + 8 →
      NGTTFrame.from_buffer ((NGTTFrame.toBytes ⟨tid, t, data⟩).take n) =
        .needMore :=
  from_buffer_toBytes_spec tid t data htid hlen

/-- Witness for C4 at the concrete frame `(tid 1, PING, payload [65])`. -/
theorem C4_witness :
    NGTTFrame.from_buffer (NGTTFrame.toBytes ⟨1, .PING, [65]⟩) =
      .ok 9 ⟨1, .PING, [65]⟩ ∧
    ∀ n, n < 9 →
      NGTTFrame.from_buffer ((NGTTFrame.toBytes ⟨1, .PING, [65]⟩).take n) =
        .needMore :=
  C4_frame_decode_encode_roundtrip 1 .PING [65] (by decide) (by decide)

/-- C10: `NGTTFrame.from_bytes` raises `InvalidFrame` on every input of at
least 8 bytes whose frame-type field exceeds 6; in particular the
encodings of `ORDER_REJECT` (9) and `FETCH_ORDERS` (10) frames are always
rejected by `from_bytes`, while `from_buffer` accepts and decodes both. -/
theorem C10_from_bytes_rejects_types_above_six (b : List Nat)
    (hb : 8 ≤ b.length) (ht : 6 < unpack16 ((b.drop 6).take 2)) :
    NGTTFrame.from_bytes b =
      .error (.invalidFrame (unpack16 ((b.drop 6).take 2))) ∧
    (∀ tid data, tid < 65536 → data.length < 4294967296 →
      NGTTFrame.from_bytes (NGTTFrame.toBytes ⟨tid, .ORDER_REJECT, data⟩) =
        .error (.invalidFrame 9) ∧
      NGTTFrame.from_buffer (NGTTFrame.toBytes ⟨tid, .ORDER_REJECT, data⟩) =
        .ok (data.length + 8) ⟨tid, .ORDER_REJECT, data⟩) ∧
    (∀ tid data, tid < 65536 → data.length < 4294967296 →
      NGTTFrame.from_bytes (NGTTFrame.toBytes ⟨tid, .FETCH_ORDERS, data⟩) =
        .error (.invalidFrame 10) ∧
      NGTTFrame.from_buffer (NGTTFrame.toBytes ⟨tid, .FETCH_ORDERS, data⟩) =
        .ok (data.length + 8) ⟨tid, .FETCH_ORDERS, data⟩) := by
  refine ⟨?_, ?_, ?_⟩
  · simp only [NGTTFrame.from_bytes]
    rw [if_neg (by omega), if_pos ht]
  · intro tid data htid hlen
    refine ⟨?_, (from_buffer_toBytes_spec tid .ORDER_REJECT data htid hlen).1⟩
    rw [toBytes_eq, from_bytes_cons8,
      unpack16_pack16 NGTTHeaderType.ORDER_REJECT.value (by decide)]
    rfl
  · intro tid data htid hlen
    refine ⟨?_, (from_buffer_toBytes_spec tid .FETCH_ORDERS data htid hlen).1⟩
    rw [toBytes_eq, from_bytes_cons8,
      unpack16_pack16 NGTTHeaderType.FETCH_ORDERS.value (by decide)]
    rfl

/-- Witness for C10 at the concrete 8-byte input with frame-type field 9. -/
theorem C10_witness :
    NGTTFrame.from_bytes [0, 0, 0, 0, 0, 1, 0, 9] =
      .error (.invalidFrame 9) :=
  (C10_from_bytes_rejects_types_above_six [0, 0, 0, 0, 0, 1, 0, 9]
    (by decide) (by decide)).1

/-- C5 (refuting evaluation): `recv_frame` does not remove a delivered
frame's bytes from the front of the buffer.  Start from an empty buffer;
the socket delivers two consecutive 8-byte `PING` frames, tids 1 and 2.
The first call delivers the tid-1 frame but — because the code runs
`del self.buffer[length]` instead of `del self.buffer[:length]` — leaves
the tid-1 frame's 8 bytes at the front of the buffer (deleting one byte
out of the middle), so the next call delivers the tid-1 frame AGAIN, and
the tid-2 frame is never delivered intact.  Moreover a lone frame exactly
filling the buffer makes the deletion raise `IndexError`. -/
theorem C5_recv_frame_redelivers_and_raises :
    (NGTTSocket.recv_frame []
        (NGTTFrame.toBytes ⟨1, .PING, []⟩ ++ NGTTFrame.toBytes ⟨2, .PING, []⟩)).1 =
      .frame ⟨1, .PING, []⟩ ∧
    (NGTTSocket.recv_frame
        (NGTTSocket.recv_frame []
          (NGTTFrame.toBytes ⟨1, .PING, []⟩ ++ NGTTFrame.toBytes ⟨2, .PING, []⟩)).2
        [0]).1 = .frame ⟨1, .PING, []⟩ ∧
    NGTTSocket.recv_frame [] (NGTTFrame.toBytes ⟨1, .PING, []⟩) =
      (.indexError, NGTTFrame.toBytes ⟨1, .PING, []⟩) := by
  decide

/-- C8 (refuting evaluation): closing the uplink connection does not
resolve pending settlement futures.  Register one settlement future (id 7)
under tid 1, as `sync_pathpoints` does, then run `NGTTConnection.close`:
the tid map is emptied but the future is still `pending` — it is leaked,
not resolved with `ConnectionFailed`. -/
theorem C8_close_leaves_future_pending :
    (NGTTConnectionState.close
        (NGTTConnectionState.sync_pathpoints_register
          ⟨true, [], [], []⟩ 1 7 [])).futures = [(7, .pending)] ∧
    (NGTTConnectionState.close
        (NGTTConnectionState.sync_pathpoints_register
          ⟨true, [], [], []⟩ 1 7 [])).op_id_to_op = [] := by
  decide

theorem allocate_int_fresh (a : IDAllocator) (h1 : a.free_ids = [])
    (h2 : a.bound < a.top_limit) :
    a.allocate_int =
      some (a.bound, { a with bound := a.bound + 1, allocated := a.bound :: a.allocated }) := by
  simp [IDAllocator.allocate_int, h1, h2]

theorem allocRun_fresh_bound :
    ∀ (n : Nat) (a : IDAllocator), a.free_ids = [] →
      a.bound + n ≤ a.top_limit →
      (IDAllocator.allocRun n a).free_ids = [] ∧
      (IDAllocator.allocRun n a).bound = a.bound + n ∧
      (IDAllocator.allocRun n a).top_limit = a.top_limit := by
  intro n
  induction n with
  | zero => intro a h1 _; simpa [IDAllocator.allocRun] using h1
  | succ k ih =>
      intro a h1 h2
      rw [IDAllocator.allocRun, allocate_int_fresh a h1 (by omega)]
      obtain ⟨hf, hb, ht⟩ := ih
        { a with bound := a.bound + 1, allocated := a.bound :: a.allocated }
        (by simpa using h1) (by simpa using by omega)
      exact ⟨hf, by rw [hb]; simp; omega, by simpa using ht⟩

/-- C9 (counterexample): the uplink id allocator's pool is
`[1, 0x10000)`, not `[1, 2^15)`.  Starting from the allocator a fresh
`NGTTSocket` builds, 32767 allocations succeed and the next one hands out
the id `32768 = 2^15`, which does NOT lie in `[1, 2^15)`. -/
theorem C9_counterexample_id_beyond_2pow15 :
    ∃ a2, (IDAllocator.allocRun 32767 NGTTSocket.id_assigner_init).allocate_int =
        some (32768, a2) ∧ ¬(32768 < 32768) := by
  obtain ⟨hf, hb, ht⟩ :=
    allocRun_fresh_bound 32767 NGTTSocket.id_assigner_init rfl (by decide)
  have halloc := allocate_int_fresh
    (IDAllocator.allocRun 32767 NGTTSocket.id_assigner_init) hf
    (by rw [hb, ht]; decide)
  rw [hb] at halloc
  exact ⟨_, halloc, by decide⟩

/-- C9 (amended): every transaction id handed out by the uplink socket's
id allocator lies in `[1, 2^16)` (not `[1, 2^15)`); ids of concurrently
outstanding transactions are pairwise distinct; and exhaustion of the
pool is turned into `ConnectionFailed` by `try_ping`. -/
theorem C9_amended_allocator_range_distinct_exhaustion (a : IDAllocator)
    (hInv : a.Inv) (hs : a.start_at = 1) (ht : a.top_limit = 65536) :
    (∀ id a2, a.allocate_int = some (id, a2) →
      1 ≤ id ∧ id < 65536 ∧ id ∉ a.allocated ∧
      a2.allocated = id :: a.allocated ∧ a2.allocated.Nodup ∧ a2.Inv) ∧
    (a.allocate_int = none →
      NGTTSocket.try_ping_allocate a =
        .error "ConnectionFailed: ran out of IDs on ping") := by
  obtain ⟨hsb, hbt, hnodA, hnodF, hbndA, hbndF, hdisj⟩ := hInv
  constructor
  · intro id a2 halloc
    unfold IDAllocator.allocate_int at halloc
    rcases hfree : a.free_ids with _ | ⟨x, rest⟩ <;> rw [hfree] at halloc
    · by_cases hlt : a.bound < a.top_limit
      · rw [if_pos hlt] at halloc
        simp only [Option.some.injEq, Prod.mk.injEq] at halloc
        obtain ⟨rfl, rfl⟩ := halloc
        have hnotA : a.bound ∉ a.allocated := fun hmem => by
          have := hbndA a.bound hmem
          omega
        have hnodA2 : (a.bound :: a.allocated).Nodup :=
          List.nodup_cons.mpr ⟨hnotA, hnodA⟩
        refine ⟨by omega, by omega, hnotA, rfl, hnodA2, ?_⟩
        refine ⟨?_, ?_, hnodA2, List.nodup_nil, ?_, ?_, ?_⟩
        · show a.start_at ≤ a.bound + 1
          omega
        · show a.bound + 1 ≤ a.top_limit
          omega
        · show ∀ y ∈ a.bound :: a.allocated, a.start_at ≤ y ∧ y < a.bound + 1
          intro y hy
          rcases List.mem_cons.mp hy with rfl | hy
          · omega
          · have := hbndA y hy
            omega
        · intro y hy
          simp at hy
        · intro y hy
          simp at hy
      · rw [if_neg hlt] at halloc
        exact absurd halloc (by simp)
    · simp only [Option.some.injEq, Prod.mk.injEq] at halloc
      obtain ⟨rfl, rfl⟩ := halloc
      have hxmem : x ∈ a.free_ids := by
        rw [hfree]
        exact List.mem_cons_self x rest
      have hxb := hbndF x hxmem
      have hxnotA := hdisj x hxmem
      have hnodA2 : (x :: a.allocated).Nodup := List.nodup_cons.mpr ⟨hxnotA, hnodA⟩
      have hrest_sub : ∀ y ∈ rest, y ∈ a.free_ids := by
        intro y hy
        rw [hfree]
        exact List.mem_cons_of_mem x hy
      have hcons := List.nodup_cons.mp (hfree ▸ hnodF)
      refine ⟨by omega, by omega, hxnotA, rfl, hnodA2, ?_⟩
      refine ⟨hsb, hbt, hnodA2, hcons.2, ?_, ?_, ?_⟩
      · show ∀ y ∈ x :: a.allocated, a.start_at ≤ y ∧ y < a.bound
        intro y hy
        rcases List.mem_cons.mp hy with rfl | hy
        · exact hxb
        · exact hbndA y hy
      · show ∀ y ∈ rest, a.start_at ≤ y ∧ y < a.bound
        intro y hy
        exact hbndF y (hrest_sub y hy)
      · show ∀ y ∈ rest, y ∉ x :: a.allocated
        intro y hy
        rcases List.nodup_cons.mp (hfree ▸ hnodF) with ⟨hx_rest, _⟩
        simp only [List.mem_cons, not_or]
        exact ⟨fun hyx => hx_rest (hyx ▸ hy), hdisj y (hrest_sub y hy)⟩
  · intro hnone
    unfold NGTTSocket.try_ping_allocate
    rw [hnone]

/-- Witness for the amended C9 on the fresh socket allocator, whose first
allocation hands out id 1. -/
theorem C9_witness :
    1 ≤ 1 ∧ 1 < 65536 ∧
      (1 : Nat) ∉ NGTTSocket.id_assigner_init.allocated := by
  have h := C9_amended_allocator_range_distinct_exhaustion
    NGTTSocket.id_assigner_init
    (by unfold IDAllocator.Inv; decide) rfl rfl
  have h2 := h.1 1
    { NGTTSocket.id_assigner_init with bound := 2, allocated := [1] } (by decide)
  exact ⟨h2.1, h2.2.1, h2.2.2.1⟩

end Ngtt

namespace Smok

/-- C1 (refuting evaluation): `on_new_data` does not keep per-pathpoint
timestamps strictly increasing, and an insert whose timestamp is less
than or equal to the latest stored one is not always a no-op.  The guard
at src/smok/extras/pp_database/in_memory.py line 77 compares the incoming
timestamp against the FIRST stored sample instead of the last: after
inserting timestamps 1 and 5, inserting timestamp 3 (which is ≤ the
current latest, 5) appends, leaving the insertion-order timestamps
`[1, 5, 3]`. -/
theorem C1_on_new_data_breaks_monotonicity :
    on_new_data (on_new_data (on_new_data [] "p" 1 (.value 0)) "p" 5 (.value 0))
        "p" 3 (.value 0) =
      [("p", [⟨1, .value 0⟩, ⟨5, .value 0⟩, ⟨3, .value 0⟩])] ∧
    ¬ List.Chain' (fun d1 d2 => d1.timestamp < d2.timestamp)
        [(⟨1, .value 0⟩ : Datapoint), ⟨5, .value 0⟩, ⟨3, .value 0⟩] ∧
    on_new_data (on_new_data (on_new_data [] "p" 1 (.value 0)) "p" 5 (.value 0))
        "p" 3 (.value 0) ≠
      on_new_data (on_new_data [] "p" 1 (.value 0)) "p" 5 (.value 0) := by
  refine ⟨rfl, ?_, by decide⟩
  simp [List.chain'_cons]

/-- C2 (refuting evaluation): after a snapshot's `acknowledge`, a sample
whose timestamp is ≤ the snapshot's maximum for its pathpoint can remain
stored.  Insert timestamps 1 and 3 for `"p"`, take the sync snapshot
(max acked timestamp 3), then insert 6 and — via the first-element bug in
`on_new_data` — the out-of-order 2.  `acknowledge` cuts the list at the
first timestamp exceeding 3, keeping `[6, 2]`: the sample with timestamp
`2 ≤ 3` survives the acknowledgement. -/
theorem C2_acknowledge_keeps_stale_sample :
    get_data_to_sync (on_new_data (on_new_data [] "p" 1 (.value 0)) "p" 3 (.value 0)) =
      some [("p", [⟨1, .value 0⟩, ⟨3, .value 0⟩])] ∧
    maxTimestamp [⟨1, .value 0⟩, ⟨3, .value 0⟩] = 3 ∧
    acknowledge
        (on_new_data
          (on_new_data
            (on_new_data (on_new_data [] "p" 1 (.value 0)) "p" 3 (.value 0))
            "p" 6 (.value 0))
          "p" 2 (.value 0))
        [("p", [⟨1, .value 0⟩, ⟨3, .value 0⟩])] =
      [("p", [⟨6, .value 0⟩, ⟨2, .value 0⟩])] ∧
    (2 : Int) ≤ 3 := by
  decide

/-- C3: in the executor loop, when the dequeued head section and the next
visible section are both JOINABLE they are concatenated before execution
(the second section's orders are appended to the first's, and the future
collections are merged, so that `mark_as_done` on the combined section
resolves the futures of both); and no concatenation happens when either
side is CANNOT_JOIN. -/
theorem C3_executor_coalesces_joinable_sections (s next : Section)
    (rest : List Section) :
    (s.disposition = Disposition.JOINABLE →
      next.disposition = Disposition.JOINABLE →
      OrderExecutorThread.loop s (next :: rest) =
        ({ s with
            orders := s.orders ++ next.orders
            future := s.future ++ next.future }, rest) ∧
      Section.mark_as_done_resolves
          { s with
            orders := s.orders ++ next.orders
            future := s.future ++ next.future } =
        s.future ++ next.future) ∧
    ((s.disposition = Disposition.CANNOT_JOIN ∨
        next.disposition = Disposition.CANNOT_JOIN) →
      OrderExecutorThread.loop s (next :: rest) = (s, next :: rest)) := by
  constructor
  · intro h1 h2
    refine ⟨?_, rfl⟩
    simp [OrderExecutorThread.loop, Section.is_joinable, Section.iadd_section, h1, h2]
  · rintro (h | h) <;>
      simp [OrderExecutorThread.loop, Section.is_joinable, h]

/-- Witness for C3 on concrete sections: two JOINABLE sections coalesce;
a CANNOT_JOIN head is not coalesced with a JOINABLE next section. -/
theorem C3_witness :
    OrderExecutorThread.loop ⟨[], .JOINABLE, [0], false⟩
        [⟨[], .JOINABLE, [1], false⟩] =
      (⟨[], .JOINABLE, [0, 1], false⟩, []) ∧
    OrderExecutorThread.loop ⟨[], .CANNOT_JOIN, [0], false⟩
        [⟨[], .JOINABLE, [1], false⟩] =
      (⟨[], .CANNOT_JOIN, [0], false⟩, [⟨[], .JOINABLE, [1], false⟩]) := by
  have h1 := C3_executor_coalesces_joinable_sections
    ⟨[], .JOINABLE, [0], false⟩ ⟨[], .JOINABLE, [1], false⟩ []
  have h2 := C3_executor_coalesces_joinable_sections
    ⟨[], .CANNOT_JOIN, [0], false⟩ ⟨[], .JOINABLE, [1], false⟩ []
  exact ⟨(h1.1 rfl rfl).1, h2.2 (Or.inl rfl)⟩

/-- C6 (evaluation): a new `WriteOrder` carries retry counter 10 for
FORCE and 1 for ADVISE, as the claim states; but a new `ReadOrder`
carries 20 for EVERY advise level, because the conditional
`3 if AdviseLevel.ADVISE else 20` tests the falsy constant
`AdviseLevel.ADVISE` (value 0) rather than the `advise` argument — in
particular an ADVISE read gets 20, not the claimed 3. -/
theorem C6_retry_counters :
    (∀ p v sa, (WriteOrder.init p v .FORCE sa).repeat_count = 10) ∧
    (∀ p v sa, (WriteOrder.init p v .ADVISE sa).repeat_count = 1) ∧
    (∀ p a, (ReadOrder.init p a).repeat_count = 20) ∧
    (ReadOrder.init "pp" .ADVISE).repeat_count ≠ 3 := by
  exact ⟨fun p v sa => rfl, fun p v sa => rfl, fun p a => rfl, by decide⟩

/-- C7: `open_event` at a local time lying inside at least one silencing
window returns `None` and leaves the event store unchanged; at a local
time inside no window it constructs an event, adds it to the event store
and returns it. -/
theorem C7_open_event_silencing (silencing : List DisabledTime)
    (verbose_name : String) (statistic : Option String) (group : String)
    (predicate_id : String) (t : Time) (msg : String) (color : Color)
    (now : Int) (fresh_uuid : String) (store : EventStore) :
    ((∃ w ∈ silencing, w.is_in_time t = true) →
      BaseStatistic.open_event silencing verbose_name statistic group
        predicate_id t msg color now fresh_uuid store = (none, store)) ∧
    ((∀ w ∈ silencing, w.is_in_time t = false) →
      BaseStatistic.open_event silencing verbose_name statistic group
        predicate_id t msg color now fresh_uuid store =
        (some (BaseStatistic.constructed_event verbose_name statistic group
            predicate_id msg color now fresh_uuid),
          store.add_event (BaseStatistic.constructed_event verbose_name
            statistic group predicate_id msg color now fresh_uuid))) := by
  constructor
  · intro h
    have hany : silencing.any (fun w => w.is_in_time t) = true := by
      obtain ⟨w, hw, hwt⟩ := h
      exact List.any_eq_true.mpr ⟨w, hw, hwt⟩
    unfold BaseStatistic.open_event
    rw [if_pos hany]
  · intro h
    have hany : ¬ silencing.any (fun w => w.is_in_time t) = true := by
      intro h2
      obtain ⟨w, hw, hwt⟩ := List.any_eq_true.mp h2
      rw [h w hw] at hwt
      exact Bool.false_ne_true hwt
    unfold BaseStatistic.open_event
    rw [if_neg hany]

/-- Witness for C7: with the single silencing window Monday 09:00-17:00,
`open_event` at Monday 10:00 yields no event and an unchanged store,
while at Monday 17:01 it creates, stores and returns the event. -/
theorem C7_witness :
    BaseStatistic.open_event [⟨⟨1, 9, 0⟩, ⟨1, 17, 0⟩⟩] "temp" (some "stat")
        "B" "pid" ⟨1, 10, 0⟩ "temp high" .RED 100 "u1" ⟨[], []⟩ =
      (none, ⟨[], []⟩) ∧
    BaseStatistic.open_event [⟨⟨1, 9, 0⟩, ⟨1, 17, 0⟩⟩] "temp" (some "stat")
        "B" "pid" ⟨1, 17, 1⟩ "temp high" .RED 100 "u1" ⟨[], []⟩ =
      (some (BaseStatistic.constructed_event "temp" (some "stat") "B" "pid"
          "temp high" .RED 100 "u1"),
        EventStore.add_event ⟨[], []⟩
          (BaseStatistic.constructed_event "temp" (some "stat") "B" "pid"
            "temp high" .RED 100 "u1")) := by
  have h1 := C7_open_event_silencing [⟨⟨1, 9, 0⟩, ⟨1, 17, 0⟩⟩] "temp"
    (some "stat") "B" "pid" ⟨1, 10, 0⟩ "temp high" .RED 100 "u1" ⟨[], []⟩
  have h2 := C7_open_event_silencing [⟨⟨1, 9, 0⟩, ⟨1, 17, 0⟩⟩] "temp"
    (some "stat") "B" "pid" ⟨1, 17, 1⟩ "temp high" .RED 100 "u1" ⟨[], []⟩
  exact ⟨h1.1 (by decide), h2.2 (by decide)⟩

end Smok

end SmokClient
